import Mathlib

/-!
# IT8786 Super I/O serial driver: embedding of `it8786_serial.c`

The driver talks to the outside world only through kernel calls
(`outb`, `inb`, `request_muxed_region`, `release_region`, the 8250 core and
the tty helpers, the `pr_*` log calls).  Each such call is recorded, in program
order, as an `Event` in the `trace` of the `World`.  A value that a kernel call
hands back to the driver (the byte returned by `inb`, the outcome of
`request_muxed_region`, the return value of `serial8250_register_8250_port`,
the baud computed by the tty helpers) is an argument of the embedded function,
so every theorem quantifies over everything the environment may answer.
-/

namespace IT8786

/-! ## Constants -/

def UART_DIV_MAX : Nat := 0xFFFF
def IT8786_SERIAL_MAX_UART : Nat := 6
def IT8786_SPECIAL_ADDR : Nat := 0x002E
def IT8786_SPECIAL_DATA : Nat := 0x002F
def IT8786_LDN_REG : Nat := 0x07
def IT8786_CHIP_ID_REG_H : Nat := 0x20
def IT8786_CHIP_ID_REG_L : Nat := 0x21
def IT8786_SERIAL_ENABLE_REG : Nat := 0x30
def IT8786_SERIAL_BASE_REG_H : Nat := 0x60
def IT8786_SERIAL_BASE_REG_L : Nat := 0x61
def IT8786_SERIAL_CLOCK_MASK : Nat := 0b0110
def IT8786_SERIAL_CLOCK_DIV_13 : Nat := 0b00
def IT8786_SERIAL_CLOCK_DIV_12 : Nat := 0b01
def IT8786_SERIAL_CLOCK_DIV_1 : Nat := 0b10
def IT8786_SERIAL_CLOCK_DIV_1_625 : Nat := 0b11

/-- Kernel errno values (`linux/errno.h`). -/
def EBUSY : Int := 16
def ENODEV : Int := 19

/-- Kernel constants of `linux/serial_core.h`. -/
def UPIO_PORT : Nat := 0
def PORT_16550A : Nat := 4

/-! ## Machine integers -/

/-- Conversion to `uint8_t`. -/
def u8 (x : Nat) : Nat := x % 2 ^ 8

/-- Conversion to `uint16_t`. -/
def u16 (x : Nat) : Nat := x % 2 ^ 16

/-- Bitwise complement `~x` of a non-negative `int`, as its 32-bit two's complement pattern. -/
def not32 (x : Nat) : Nat := (2 ^ 32 - 1) ^^^ x

/-! ## Data model -/

/-- The hooks a `uart_port` can carry in its `set_termios` slot. -/
inductive TermiosHook where
  | it8786_serial_set_termios
  deriving DecidableEq, Repr

/-- The fields of `struct uart_port` the driver writes.  `private_data` points to an
entry of `it8786_ports` (its index) or is NULL (`none`). -/
structure uart_port where
  private_data : Option (Fin 6)
  iotype : Nat
  type : Nat
  uartclk : Nat
  iobase : Nat
  set_termios : Option TermiosHook
  deriving DecidableEq, Repr

structure uart_8250_port where
  port : uart_port
  deriving DecidableEq, Repr

structure it8786_serial_port where
  ldn : Nat
  line : Int
  up : uart_8250_port
  deriving DecidableEq, Repr

/-- Messages of the `pr_debug` / `pr_info` / `pr_warn` calls, with their arguments. -/
inductive LogMsg where
  | initializing_module
  | exiting_module
  | skipping_busy_port (i : Nat)
  | skipping_disabled_port (i : Nat) (ldn : Nat)
  | failed_to_register (i : Nat) (ret : Int)
  | registered_port (i : Nat) (iobase : Nat)
  | invalid_chip_id (id : Nat)
  | setting_baud (baud : Nat) (uartclk : Nat)
  | cannot_update_clock_div
  deriving DecidableEq, Repr

/-- One call out of the driver into the kernel, with the value it returned where it
returns one. -/
inductive Event where
  | request_muxed_region (start n : Nat) (granted : Bool)
  | release_region (start n : Nat)
  | outb (value port : Nat)
  | inb (port value : Nat)
  | serial8250_register_8250_port (up : uart_8250_port) (ret : Int)
  | serial8250_unregister_port (line : Int)
  | serial8250_do_set_termios (port : uart_port)
  | tty_termios_baud_rate (ret : Nat)
  | tty_termios_encode_baud_rate (ibaud obaud : Nat)
  | uart_get_baud_rate (min max ret : Nat)
  | pr_debug (msg : LogMsg)
  | pr_info (msg : LogMsg)
  | pr_warn (msg : LogMsg)
  deriving DecidableEq, Repr

/-- The driver's static storage (`sio_resource`, `it8786_ports`) and the calls made so
far.  `sio_resource` is `true` when the pointer is non-NULL. -/
structure World where
  sio_resource : Bool
  it8786_ports : Fin 6 → it8786_serial_port
  trace : List Event

/-- Zero-initialised `struct uart_8250_port`. -/
def uart_8250_port_zero : uart_8250_port :=
  { port := { private_data := none, iotype := 0, type := 0, uartclk := 0, iobase := 0,
              set_termios := none } }

def IT8786_PORT (ldn : Nat) : it8786_serial_port :=
  { ldn := ldn, line := -1, up := uart_8250_port_zero }

/-- The static initialiser of `it8786_ports`. -/
def it8786_ports_init (i : Fin 6) : it8786_serial_port :=
  IT8786_PORT ([0x01, 0x02, 0x08, 0x09, 0x0B, 0x0C].getD i.val 0)

/-- The state of the module when it is loaded. -/
def World.init : World :=
  { sio_resource := false, it8786_ports := it8786_ports_init, trace := [] }

/-! ## Kernel calls -/

def emit (e : Event) (w : World) : World :=
  { w with trace := w.trace ++ [e] }

def outb (value port : Nat) (w : World) : World :=
  emit (Event.outb value port) w

/-- Port read; `answer` is the byte the hardware puts on the bus. -/
def inb (port : Nat) (answer : Nat) (w : World) : Nat × World :=
  (u8 answer, emit (Event.inb port (u8 answer)) w)

/-- Region request; `granted` tells whether the kernel handed out the region (a non-NULL
result).  A request that sleeps until the region is free is seen when it returns. -/
def request_muxed_region (start n : Nat) (granted : Bool) (w : World) : Bool × World :=
  (granted, emit (Event.request_muxed_region start n granted) w)

def release_region (start n : Nat) (w : World) : World :=
  emit (Event.release_region start n) w

def pr_debug (msg : LogMsg) (w : World) : World :=
  emit (Event.pr_debug msg) w

def pr_info (msg : LogMsg) (w : World) : World :=
  emit (Event.pr_info msg) w

def pr_warn (msg : LogMsg) (w : World) : World :=
  emit (Event.pr_warn msg) w

/-- Store through `ip = &it8786_ports[i]`. -/
def World.modifyPort (w : World) (i : Fin 6) (f : it8786_serial_port → it8786_serial_port) :
    World :=
  { w with it8786_ports := Function.update w.it8786_ports i (f (w.it8786_ports i)) }

/-! ## The driver -/

def enter_sio (granted : Bool) (w : World) : Int × World :=
  if w.sio_resource then (0, w)
  else
    let r := request_muxed_region IT8786_SPECIAL_ADDR 2 granted w
    if !r.1 then (-EBUSY, r.2)
    else
      let w := outb 0x02 IT8786_SPECIAL_ADDR r.2
      let w := outb 0x02 IT8786_SPECIAL_DATA w
      let w := outb 0x87 IT8786_SPECIAL_ADDR w
      let w := outb 0x01 IT8786_SPECIAL_ADDR w
      let w := outb 0x55 IT8786_SPECIAL_ADDR w
      let w := outb 0x55 IT8786_SPECIAL_ADDR w
      (0, w)

def exit_sio (w : World) : World :=
  let w := outb 0x02 IT8786_SPECIAL_ADDR w
  let w := outb 0x02 IT8786_SPECIAL_DATA w
  let w := release_region IT8786_SPECIAL_ADDR 2 w
  { w with sio_resource := false }

def read_sio_reg (reg : Nat) (answer : Nat) (w : World) : Nat × World :=
  let w := outb (u8 reg) IT8786_SPECIAL_ADDR w
  inb IT8786_SPECIAL_DATA answer w

def write_sio_reg (reg data : Nat) (w : World) : World :=
  let w := outb (u8 reg) IT8786_SPECIAL_ADDR w
  outb (u8 data) IT8786_SPECIAL_DATA w

def set_sio_ldn (ldn : Nat) (w : World) : World :=
  write_sio_reg IT8786_LDN_REG ldn w

def get_chip_id (id_h id_l : Nat) (w : World) : Nat × World :=
  let r := read_sio_reg IT8786_CHIP_ID_REG_H id_h w
  let id := u16 (r.1 <<< 8)
  let r := read_sio_reg IT8786_CHIP_ID_REG_L id_l r.2
  let id := u16 (id ||| r.1)
  (id, r.2)

def get_serial_port_enabled (port : it8786_serial_port) (enable : Nat) (w : World) :
    Bool × World :=
  let w := set_sio_ldn port.ldn w
  let r := read_sio_reg IT8786_SERIAL_ENABLE_REG enable w
  (r.1 &&& 0b1 != 0, r.2)

def get_serial_base_addr (port : it8786_serial_port) (base_h base_l : Nat) (w : World) :
    Nat × World :=
  let w := set_sio_ldn port.ldn w
  let r := read_sio_reg IT8786_SERIAL_BASE_REG_H base_h w
  let base := u16 (r.1 <<< 8)
  let r := read_sio_reg IT8786_SERIAL_BASE_REG_L base_l r.2
  let base := u16 (base ||| r.1)
  (base, r.2)

def set_serial_clock_div (port : it8786_serial_port) (divisor : Nat) (clock : Nat)
    (w : World) : World :=
  let w := set_sio_ldn port.ldn w
  let r := read_sio_reg 0xF0 clock w
  let config := r.1
  let config := u8 (config &&& not32 IT8786_SERIAL_CLOCK_MASK)
  let config := u8 (config ||| (u8 divisor <<< 1))
  write_sio_reg 0xF0 config r.2

/-- What the kernel answers during one call of the line-settings hook: the baud of
`tty_termios_baud_rate`, the clamped baud of `uart_get_baud_rate`, the outcome of the
region request and the byte read from register 0xF0. -/
structure TermiosAnswers where
  requested : Nat
  baud : Nat
  granted : Bool
  clock : Nat

/-- The hook, called on `port = &it8786_ports[i].up.port`.  The result is `none` when the
code dereferences a NULL `private_data`. -/
def it8786_serial_set_termios (i : Fin 6) (a : TermiosAnswers) (w : World) : Option World :=
  let port := (w.it8786_ports i).up.port
  let w := emit (Event.tty_termios_baud_rate a.requested) w
  let baud := a.requested
  let w := emit (Event.tty_termios_encode_baud_rate baud baud) w
  let w := emit (Event.uart_get_baud_rate (port.uartclk / 16 / UART_DIV_MAX) port.uartclk
    a.baud) w
  let baud := a.baud
  let ip := port.private_data
  let r := enter_sio a.granted w
  let done : Option World :=
    if r.1 = 0 then
      match ip with
      | none => none
      | some j =>
        let w := r.2
        let w :=
          if baud ≤ 115200 then
            let w := set_serial_clock_div (w.it8786_ports j) IT8786_SERIAL_CLOCK_DIV_13
              a.clock w
            w.modifyPort i fun p =>
              { p with up := { port := { p.up.port with uartclk := 1843200 } } }
          else
            let w := set_serial_clock_div (w.it8786_ports j) IT8786_SERIAL_CLOCK_DIV_1_625
              a.clock w
            w.modifyPort i fun p =>
              { p with up := { port := { p.up.port with uartclk := 14769230 } } }
        let w := exit_sio w
        some (pr_debug (LogMsg.setting_baud baud (w.it8786_ports i).up.port.uartclk) w)
    else
      some (pr_warn LogMsg.cannot_update_clock_div r.2)
  done.map fun w => emit (Event.serial8250_do_set_termios (w.it8786_ports i).up.port) w

/-- What the kernel answers while one candidate is processed by `it8786_register_ports`:
the outcome of the first region request, the bytes read from registers 0x30, 0x60 and
0x61, the return value of `serial8250_register_8250_port`, the outcome of the second
region request and the byte read from register 0xF0. -/
structure ProbeAnswers where
  granted : Bool
  enable : Nat
  base_h : Nat
  base_l : Nat
  ret : Int
  granted2 : Bool
  clock : Nat

/-- The body of the `for` loop of `it8786_register_ports`, at index `i`. -/
def register_port (i : Fin 6) (a : ProbeAnswers) (w : World) : World :=
  let ip := w.it8786_ports i
  let r := enter_sio a.granted w
  let ret := r.1
  if ret ≠ 0 then pr_debug (LogMsg.skipping_busy_port i) r.2
  else
    let r := get_serial_port_enabled ip a.enable r.2
    if !r.1 then
      let w := pr_info (LogMsg.skipping_disabled_port i ip.ldn) r.2
      exit_sio w
    else
      let r := get_serial_base_addr ip a.base_h a.base_l r.2
      let iobase := r.1
      let w := exit_sio r.2
      let w := w.modifyPort i fun p =>
        { p with up := { port := { p.up.port with
            private_data := some i
            iotype := UPIO_PORT
            type := PORT_16550A
            uartclk := 1843200
            iobase := iobase
            set_termios := some TermiosHook.it8786_serial_set_termios } } }
      let ret := a.ret
      let w := emit (Event.serial8250_register_8250_port (w.it8786_ports i).up ret) w
      if ret < 0 then
        let w := w.modifyPort i fun p =>
          { p with up := { port := { p.up.port with iobase := 0 } } }
        pr_warn (LogMsg.failed_to_register i ret) w
      else
        let r := enter_sio a.granted2 w
        let w :=
          if r.1 = 0 then
            let w := set_serial_clock_div (r.2.it8786_ports i) IT8786_SERIAL_CLOCK_DIV_13
              a.clock r.2
            exit_sio w
          else r.2
        let w := pr_info (LogMsg.registered_port i (w.it8786_ports i).up.port.iobase) w
        w.modifyPort i fun p => { p with line := ret }

/-- The `for` loop of `it8786_register_ports` over the indices still to visit. -/
def register_ports_loop (a : Fin 6 → ProbeAnswers) : List (Fin 6) → World → World
  | [], w => w
  | i :: rest, w => register_ports_loop a rest (register_port i (a i) w)

def it8786_register_ports (a : Fin 6 → ProbeAnswers) (w : World) : World :=
  register_ports_loop a [0, 1, 2, 3, 4, 5] w

/-- What the kernel answers during `it8786_serial_init`. -/
structure InitAnswers where
  granted : Bool
  id_h : Nat
  id_l : Nat
  ports : Fin 6 → ProbeAnswers

def it8786_serial_init (a : InitAnswers) (w : World) : Int × World :=
  let w := pr_debug LogMsg.initializing_module w
  let r := enter_sio a.granted w
  let ret := r.1
  if ret ≠ 0 then (ret, r.2)
  else
    let r := get_chip_id a.id_h a.id_l r.2
    let chip_id := r.1
    let w := exit_sio r.2
    if chip_id ≠ 0x8786 then
      let w := pr_warn (LogMsg.invalid_chip_id chip_id) w
      (-ENODEV, w)
    else
      (ret, it8786_register_ports a.ports w)

/-- What the kernel answers while `it8786_serial_exit` handles one descriptor. -/
structure ExitAnswers where
  granted : Bool
  clock : Nat

/-- The body of the `for` loop of `it8786_serial_exit`, at index `i`. -/
def unregister_port (i : Fin 6) (a : ExitAnswers) (w : World) : World :=
  let ip := w.it8786_ports i
  if ip.line ≥ 0 then
    let r := enter_sio a.granted w
    let w :=
      if r.1 = 0 then
        let w := set_serial_clock_div ip IT8786_SERIAL_CLOCK_DIV_13 a.clock r.2
        exit_sio w
      else r.2
    emit (Event.serial8250_unregister_port ip.line) w
  else w

def unregister_ports_loop (a : Fin 6 → ExitAnswers) : List (Fin 6) → World → World
  | [], w => w
  | i :: rest, w => unregister_ports_loop a rest (unregister_port i (a i) w)

def it8786_serial_exit (a : Fin 6 → ExitAnswers) (w : World) : World :=
  let w := pr_debug LogMsg.exiting_module w
  unregister_ports_loop a [0, 1, 2, 3, 4, 5] w

/-! ## Vocabulary of the statements -/

/-- The calls of a successful `enter_sio`: the region request, the disable pair and the
four unlock bytes. -/
def open_events : List Event :=
  [Event.request_muxed_region IT8786_SPECIAL_ADDR 2 true,
   Event.outb 0x02 IT8786_SPECIAL_ADDR, Event.outb 0x02 IT8786_SPECIAL_DATA,
   Event.outb 0x87 IT8786_SPECIAL_ADDR, Event.outb 0x01 IT8786_SPECIAL_ADDR,
   Event.outb 0x55 IT8786_SPECIAL_ADDR, Event.outb 0x55 IT8786_SPECIAL_ADDR]

/-- The calls of `exit_sio`: the disable pair and the release of the region. -/
def close_events : List Event :=
  [Event.outb 0x02 IT8786_SPECIAL_ADDR, Event.outb 0x02 IT8786_SPECIAL_DATA,
   Event.release_region IT8786_SPECIAL_ADDR 2]

/-- Selecting logical device `ldn` and reading register `reg`, which answers `value`. -/
def read_events (ldn reg value : Nat) : List Event :=
  [Event.outb IT8786_LDN_REG IT8786_SPECIAL_ADDR, Event.outb ldn IT8786_SPECIAL_DATA,
   Event.outb reg IT8786_SPECIAL_ADDR, Event.inb IT8786_SPECIAL_DATA value]

/-- Writing `value` to register `reg` of the selected device. -/
def write_events (reg value : Nat) : List Event :=
  [Event.outb reg IT8786_SPECIAL_ADDR, Event.outb value IT8786_SPECIAL_DATA]

/-- The byte written back to register 0xF0 when `old` was read and divisor code `d` is
applied: the computation of `set_serial_clock_div`. -/
def clock_config (old d : Nat) : Nat :=
  u8 (u8 (old &&& not32 IT8786_SERIAL_CLOCK_MASK) ||| (u8 d <<< 1))

/-- The divisor field (bits 1-2) of a clock-configuration byte. -/
def divisor_field (config : Nat) : Nat := (config >>> 1) &&& 0b11

/-- The reference clock the hook selects for a clamped baud. -/
def tier_clock (baud : Nat) : Nat := if baud ≤ 115200 then 1843200 else 14769230

/-- The divisor code the hook selects for a clamped baud. -/
def tier_code (baud : Nat) : Nat :=
  if baud ≤ 115200 then IT8786_SERIAL_CLOCK_DIV_13 else IT8786_SERIAL_CLOCK_DIV_1_625

/-- The calls `it8786_serial_init` makes up to and including the identity check's
`exit_sio`, when the region is granted and the identity registers answer `id_h`, `id_l`. -/
def identify_events (id_h id_l : Nat) : List Event :=
  [Event.pr_debug LogMsg.initializing_module] ++ open_events ++
    [Event.outb IT8786_CHIP_ID_REG_H IT8786_SPECIAL_ADDR, Event.inb IT8786_SPECIAL_DATA id_h,
     Event.outb IT8786_CHIP_ID_REG_L IT8786_SPECIAL_ADDR, Event.inb IT8786_SPECIAL_DATA id_l]
    ++ close_events

/-- The 16-bit I/O base composed from the two bytes read from 0x60 and 0x61. -/
def base_addr (a : ProbeAnswers) : Nat := u16 (u16 (u8 a.base_h <<< 8) ||| u8 a.base_l)

/-- The port description `it8786_register_ports` fills in for candidate `i` before it
calls `serial8250_register_8250_port`. -/
def described_port (i : Fin 6) (iobase : Nat) : uart_8250_port :=
  { port := { private_data := some i, iotype := UPIO_PORT, type := PORT_16550A,
              uartclk := 1843200, iobase := iobase,
              set_termios := some TermiosHook.it8786_serial_set_termios } }

/-- The calls that probe a candidate up to the read of its enable flag: open the session,
select the logical device, read register 0x30. -/
def probe_events (ldn enable : Nat) : List Event :=
  open_events ++ read_events (u8 ldn) IT8786_SERIAL_ENABLE_REG (u8 enable)

/-- The calls that read the base address of the selected candidate: select the logical
device again, read 0x60, read 0x61. -/
def base_events (ldn base_h base_l : Nat) : List Event :=
  read_events (u8 ldn) IT8786_SERIAL_BASE_REG_H (u8 base_h) ++
    [Event.outb IT8786_SERIAL_BASE_REG_L IT8786_SPECIAL_ADDR,
     Event.inb IT8786_SPECIAL_DATA (u8 base_l)]

/-- The calls that force the baseline divisor on logical device `ldn` in a session of
their own, or the refused region request alone. -/
def baseline_events (granted : Bool) (ldn clock : Nat) : List Event :=
  if granted then
    open_events ++ read_events (u8 ldn) 0xF0 (u8 clock) ++
      write_events 0xF0 (clock_config (u8 clock) IT8786_SERIAL_CLOCK_DIV_13) ++ close_events
  else [Event.request_muxed_region IT8786_SPECIAL_ADDR 2 false]

/-- The calls made while candidate `i`, of logical device `ldn`, is processed by the
discovery loop under the answers `a`. -/
def discovery_events (i : Fin 6) (a : ProbeAnswers) (ldn : Nat) : List Event :=
  if a.granted then
    probe_events ldn a.enable ++
      (if a.enable % 2 = 1 then
        base_events ldn a.base_h a.base_l ++ close_events ++
          [Event.serial8250_register_8250_port (described_port i (base_addr a)) a.ret] ++
          (if 0 ≤ a.ret then
            baseline_events a.granted2 ldn a.clock ++
              [Event.pr_info (LogMsg.registered_port i (base_addr a))]
          else [Event.pr_warn (LogMsg.failed_to_register i a.ret)])
      else
        [Event.pr_info (LogMsg.skipping_disabled_port i ldn)] ++ close_events)
  else
    [Event.request_muxed_region IT8786_SPECIAL_ADDR 2 false,
     Event.pr_debug (LogMsg.skipping_busy_port i)]

/-- The candidates the discovery loop visits before candidate `i`, in order. -/
def candidates_before (i : Fin 6) : List (Fin 6) :=
  List.filter (fun k => decide (k < i)) [0, 1, 2, 3, 4, 5]

/-- The candidates the discovery loop visits after candidate `i`, in order. -/
def candidates_after (i : Fin 6) : List (Fin 6) :=
  List.filter (fun k => decide (i < k)) [0, 1, 2, 3, 4, 5]

/-- The descriptor of candidate `i` after the discovery loop has processed it under the
answers `a`. -/
def discovered_port (i : Fin 6) (a : ProbeAnswers) (p : it8786_serial_port) :
    it8786_serial_port :=
  if a.granted = true ∧ a.enable % 2 = 1 then
    if 0 ≤ a.ret then { p with line := a.ret, up := described_port i (base_addr a) }
    else { p with up := described_port i 0 }
  else p

/-- The calls `it8786_serial_exit` makes for one descriptor. -/
def shutdown_events (a : ExitAnswers) (p : it8786_serial_port) : List Event :=
  if 0 ≤ p.line then
    baseline_events a.granted p.ldn a.clock ++ [Event.serial8250_unregister_port p.line]
  else []

/-- State of the config session as the chip and the kernel see it.  `opened`: the region
is held; `disabling`: held, and 0x02 has just been written to the address port;
`disabled`: held, and the disable pair is complete; `closed`: region released after a
complete disable pair; `dirty`: the mailbox was touched without the region, or the region
was released without the disable pair, or granted while held. -/
inductive Session where
  | closed
  | opened
  | disabling
  | disabled
  | dirty
  deriving DecidableEq, Repr

def Session.step (s : Session) (e : Event) : Session :=
  match e with
  | Event.request_muxed_region _ _ granted =>
    if granted then (match s with
      | Session.closed => Session.opened
      | _ => Session.dirty)
    else s
  | Event.release_region _ _ =>
    (match s with
      | Session.disabled => Session.closed
      | _ => Session.dirty)
  | Event.outb value port =>
    (match s with
      | Session.closed => Session.dirty
      | Session.dirty => Session.dirty
      | Session.disabling =>
        if value = 0x02 ∧ port = IT8786_SPECIAL_DATA then Session.disabled
        else if value = 0x02 ∧ port = IT8786_SPECIAL_ADDR then Session.disabling
        else Session.opened
      | _ =>
        if value = 0x02 ∧ port = IT8786_SPECIAL_ADDR then Session.disabling
        else Session.opened)
  | Event.inb _ _ =>
    (match s with
      | Session.closed => Session.dirty
      | Session.dirty => Session.dirty
      | _ => Session.opened)
  | _ => s

/-- Calls into the external UART driver. -/
def Event.is_driver_call : Event → Bool
  | Event.serial8250_register_8250_port _ _ => true
  | Event.serial8250_unregister_port _ => true
  | Event.serial8250_do_set_termios _ => true
  | _ => false

/-- Runs the session through a list of calls; `none` when a call into the UART driver is
made while the session is not `closed`. -/
def Session.run : Session → List Event → Option Session
  | s, [] => some s
  | s, e :: es =>
    if e.is_driver_call && s != Session.closed then none
    else Session.run (s.step e) es

/-! ## Sample inputs -/

/-- Answers for a candidate that is enabled at I/O base 0x3F8 and registers as line 0. -/
def answers_registered : ProbeAnswers :=
  { granted := true, enable := 0x01, base_h := 0x03, base_l := 0xF8, ret := 0,
    granted2 := true, clock := 0x00 }

/-- Answers for a candidate whose enable flag reads 0x00. -/
def answers_disabled : ProbeAnswers :=
  { granted := true, enable := 0x00, base_h := 0x03, base_l := 0xF8, ret := 0,
    granted2 := true, clock := 0x00 }

/-- The module state after candidate 0 alone has been registered. -/
def world_registered : World := register_port 0 answers_registered World.init

/-- A request for 921600 baud while register 0xF0 reads 0xA5. -/
def answers_921600 : TermiosAnswers :=
  { requested := 921600, baud := 921600, granted := true, clock := 0xA5 }

/-- A request for 9600 baud that finds the mailbox region refused. -/
def answers_busy : TermiosAnswers :=
  { requested := 9600, baud := 9600, granted := false, clock := 0xA5 }

/-- Answers of a machine whose identity registers read (0x12, 0x34). -/
def answers_wrong_chip : InitAnswers :=
  { granted := true, id_h := 0x12, id_l := 0x34, ports := fun _ => answers_registered }

/-- Answers of a machine whose identity registers read (0x87, 0x86) and whose six
candidates are all disabled. -/
def answers_right_chip : InitAnswers :=
  { granted := true, id_h := 0x87, id_l := 0x86, ports := fun _ => answers_disabled }

/-- Answers of a shutdown in which every region request is granted and register 0xF0
reads 0x06. -/
def answers_exit : Fin 6 → ExitAnswers :=
  fun _ => { granted := true, clock := 0x06 }

/-- Answers of a discovery pass in which candidates 0 and 3 are enabled and register
(lines 0 and 1), candidate 1 is enabled and fails to register, and the others are
disabled; the region is granted every time. -/
def answers_mixed : Fin 6 → ProbeAnswers := fun i =>
  if i = 0 then answers_registered
  else if i = 1 then { answers_registered with base_h := 0x02, ret := -16 }
  else if i = 3 then { answers_registered with base_l := 0xE8, ret := 1 }
  else answers_disabled

/-! ## Byte arithmetic of the divisor field -/

set_option maxRecDepth 1000000 in
theorem clock_field_arith : ∀ c < 256, ∀ d < 4,
    u8 (u8 (c &&& not32 IT8786_SERIAL_CLOCK_MASK) ||| (u8 d <<< 1))
        &&& not32 IT8786_SERIAL_CLOCK_MASK = c &&& not32 IT8786_SERIAL_CLOCK_MASK
      ∧ (u8 (u8 (c &&& not32 IT8786_SERIAL_CLOCK_MASK) ||| (u8 d <<< 1)) >>> 1) &&& 0b11 = d := by
  decide

theorem u8_lt (x : Nat) : u8 x < 256 := by
  unfold u8
  omega

theorem div_code_lt {d : Nat}
    (hd : d ∈ [IT8786_SERIAL_CLOCK_DIV_13, IT8786_SERIAL_CLOCK_DIV_12,
      IT8786_SERIAL_CLOCK_DIV_1, IT8786_SERIAL_CLOCK_DIV_1_625]) : d < 4 := by
  simp [IT8786_SERIAL_CLOCK_DIV_13, IT8786_SERIAL_CLOCK_DIV_12, IT8786_SERIAL_CLOCK_DIV_1,
    IT8786_SERIAL_CLOCK_DIV_1_625] at hd
  omega

/-! ## The effect of each routine on the world -/

theorem enter_sio_granted (w : World) (h : w.sio_resource = false) :
    enter_sio true w = (0, { w with trace := w.trace ++ open_events }) := by
  simp [enter_sio, h, request_muxed_region, outb, emit, open_events]

theorem enter_sio_busy (w : World) (h : w.sio_resource = false) :
    enter_sio false w =
      (-EBUSY, { w with trace := w.trace ++
        [Event.request_muxed_region IT8786_SPECIAL_ADDR 2 false] }) := by
  simp [enter_sio, h, request_muxed_region, emit]

theorem exit_sio_eq (w : World) :
    exit_sio w = { w with sio_resource := false, trace := w.trace ++ close_events } := by
  simp [exit_sio, release_region, outb, emit, close_events]

theorem set_serial_clock_div_eq (port : it8786_serial_port) (d old : Nat) (w : World) :
    set_serial_clock_div port d old w =
      { w with trace := w.trace ++ (read_events (u8 port.ldn) 0xF0 (u8 old) ++
          write_events 0xF0 (clock_config (u8 old) d)) } := by
  simp [set_serial_clock_div, set_sio_ldn, write_sio_reg, read_sio_reg, inb, outb, emit,
    read_events, write_events, clock_config, u8, IT8786_LDN_REG]

theorem get_serial_port_enabled_eq (port : it8786_serial_port) (enable : Nat) (w : World) :
    get_serial_port_enabled port enable w =
      (u8 enable &&& 0b1 != 0, { w with trace := w.trace ++
        (read_events (u8 port.ldn) IT8786_SERIAL_ENABLE_REG (u8 enable)) }) := by
  simp [get_serial_port_enabled, set_sio_ldn, write_sio_reg, read_sio_reg, inb, outb, emit,
    read_events, u8, IT8786_SERIAL_ENABLE_REG, IT8786_LDN_REG]

theorem get_serial_base_addr_eq (port : it8786_serial_port) (base_h base_l : Nat)
    (w : World) :
    get_serial_base_addr port base_h base_l w =
      (u16 (u16 (u8 base_h <<< 8) ||| u8 base_l), { w with trace := w.trace ++
        (read_events (u8 port.ldn) IT8786_SERIAL_BASE_REG_H (u8 base_h) ++
          [Event.outb IT8786_SERIAL_BASE_REG_L IT8786_SPECIAL_ADDR,
           Event.inb IT8786_SPECIAL_DATA (u8 base_l)]) }) := by
  simp [get_serial_base_addr, set_sio_ldn, write_sio_reg, read_sio_reg, inb, outb, emit,
    read_events, u8, IT8786_SERIAL_BASE_REG_H, IT8786_SERIAL_BASE_REG_L, IT8786_LDN_REG]

theorem get_chip_id_eq (id_h id_l : Nat) (w : World) :
    get_chip_id id_h id_l w =
      (u16 (u16 (u8 id_h <<< 8) ||| u8 id_l), { w with trace := w.trace ++
        [Event.outb IT8786_CHIP_ID_REG_H IT8786_SPECIAL_ADDR,
         Event.inb IT8786_SPECIAL_DATA (u8 id_h),
         Event.outb IT8786_CHIP_ID_REG_L IT8786_SPECIAL_ADDR,
         Event.inb IT8786_SPECIAL_DATA (u8 id_l)] }) := by
  simp [get_chip_id, read_sio_reg, inb, outb, emit, u8, IT8786_CHIP_ID_REG_H,
    IT8786_CHIP_ID_REG_L]

/-- C2: for every byte `old` read from register 0xF0 and every divisor code `d` of the
closed set, `set_serial_clock_div` selects the port's LDN, reads 0xF0 and writes back a
byte `new` that agrees with `old` outside the mask `0b0110` and carries `d` in bits 1-2. -/
theorem C2_masked_divisor_update (port : it8786_serial_port) (d old : Nat) (w : World)
    (hold : old < 256)
    (hd : d ∈ [IT8786_SERIAL_CLOCK_DIV_13, IT8786_SERIAL_CLOCK_DIV_12,
      IT8786_SERIAL_CLOCK_DIV_1, IT8786_SERIAL_CLOCK_DIV_1_625]) :
    ∃ new : Nat,
      set_serial_clock_div port d old w =
        { w with trace := w.trace ++
            [Event.outb IT8786_LDN_REG IT8786_SPECIAL_ADDR,
             Event.outb (u8 port.ldn) IT8786_SPECIAL_DATA,
             Event.outb 0xF0 IT8786_SPECIAL_ADDR, Event.inb IT8786_SPECIAL_DATA old,
             Event.outb 0xF0 IT8786_SPECIAL_ADDR, Event.outb new IT8786_SPECIAL_DATA] }
      ∧ new < 256
      ∧ new &&& not32 IT8786_SERIAL_CLOCK_MASK = old &&& not32 IT8786_SERIAL_CLOCK_MASK
      ∧ (new >>> 1) &&& 0b11 = d := by
  have hu : u8 old = old := Nat.mod_eq_of_lt hold
  have hc := clock_field_arith old hold d (div_code_lt hd)
  refine ⟨u8 (u8 (old &&& not32 IT8786_SERIAL_CLOCK_MASK) ||| (u8 d <<< 1)), ?_, u8_lt _,
    hc.1, hc.2⟩
  rw [set_serial_clock_div_eq, hu]
  simp [read_events, write_events, clock_config]

/-- Code 0b11 applied to a register that reads 0xA5. -/
theorem C2_masked_divisor_update_witness :
    ∃ new : Nat,
      set_serial_clock_div (IT8786_PORT 0x01) IT8786_SERIAL_CLOCK_DIV_1_625 0xA5 World.init =
        { World.init with trace := World.init.trace ++
            [Event.outb IT8786_LDN_REG IT8786_SPECIAL_ADDR,
             Event.outb (u8 (IT8786_PORT 0x01).ldn) IT8786_SPECIAL_DATA,
             Event.outb 0xF0 IT8786_SPECIAL_ADDR, Event.inb IT8786_SPECIAL_DATA 0xA5,
             Event.outb 0xF0 IT8786_SPECIAL_ADDR, Event.outb new IT8786_SPECIAL_DATA] }
      ∧ new < 256
      ∧ new &&& not32 IT8786_SERIAL_CLOCK_MASK = 0xA5 &&& not32 IT8786_SERIAL_CLOCK_MASK
      ∧ (new >>> 1) &&& 0b11 = IT8786_SERIAL_CLOCK_DIV_1_625 :=
  C2_masked_divisor_update (IT8786_PORT 0x01) IT8786_SERIAL_CLOCK_DIV_1_625 0xA5 World.init
    (by decide) (by decide)

/-- C10: with the session closed, a granted region request makes `enter_sio` return 0
after exactly the request, the disable pair (0x02 to the address port, 0x02 to the data
port) and the unlock bytes 0x87, 0x01, 0x55, 0x55 to the address port; a refused request
makes it return `-EBUSY` after the request alone, with no port write. -/
theorem C10_enter_sio_handshake (w : World) (h : w.sio_resource = false) :
    enter_sio true w =
        (0, { w with trace := w.trace ++
          [Event.request_muxed_region 0x2E 2 true,
           Event.outb 0x02 0x2E, Event.outb 0x02 0x2F,
           Event.outb 0x87 0x2E, Event.outb 0x01 0x2E,
           Event.outb 0x55 0x2E, Event.outb 0x55 0x2E] })
      ∧ enter_sio false w =
        (-EBUSY, { w with trace := w.trace ++ [Event.request_muxed_region 0x2E 2 false] }) := by
  constructor
  · rw [enter_sio_granted w h]; rfl
  · rw [enter_sio_busy w h]; rfl

/-- Opening the session on the freshly loaded module. -/
theorem C10_enter_sio_handshake_witness :
    enter_sio true World.init =
        (0, { World.init with trace := World.init.trace ++
          [Event.request_muxed_region 0x2E 2 true,
           Event.outb 0x02 0x2E, Event.outb 0x02 0x2F,
           Event.outb 0x87 0x2E, Event.outb 0x01 0x2E,
           Event.outb 0x55 0x2E, Event.outb 0x55 0x2E] })
      ∧ enter_sio false World.init =
        (-EBUSY, { World.init with trace := World.init.trace ++
          [Event.request_muxed_region 0x2E 2 false] }) :=
  C10_enter_sio_handshake World.init rfl

/-- C8: `enter_sio` never stores the acquired region in `sio_resource`, so the flag it
tests stays NULL while a session is open; a second `enter_sio` on the open session
requests the region again and, when granted, repeats the six handshake writes, and when
refused returns `-EBUSY`. -/
theorem C8_enter_sio_reopen_repeats :
    (∀ (g : Bool) (w : World), (enter_sio g w).2.sio_resource = w.sio_resource)
      ∧ (enter_sio true (enter_sio true World.init).2).2.trace =
          (enter_sio true World.init).2.trace ++
            [Event.request_muxed_region 0x2E 2 true,
             Event.outb 0x02 0x2E, Event.outb 0x02 0x2F,
             Event.outb 0x87 0x2E, Event.outb 0x01 0x2E,
             Event.outb 0x55 0x2E, Event.outb 0x55 0x2E]
      ∧ (enter_sio true World.init).1 = 0
      ∧ (enter_sio false (enter_sio true World.init).2).1 = -EBUSY
      ∧ (enter_sio false (enter_sio true World.init).2).2.trace =
          (enter_sio true World.init).2.trace ++ [Event.request_muxed_region 0x2E 2 false] := by
  refine ⟨?_, by decide, by decide, by decide, by decide⟩
  intro g w
  cases g <;> cases h : w.sio_resource <;>
    simp [enter_sio, h, request_muxed_region, outb, emit]

theorem set_termios_granted (i j : Fin 6) (a : TermiosAnswers) (w : World)
    (hclosed : w.sio_resource = false) (hgranted : a.granted = true)
    (hdata : (w.it8786_ports i).up.port.private_data = some j) :
    it8786_serial_set_termios i a w = some
      { sio_resource := false
        it8786_ports := Function.update w.it8786_ports i
          { w.it8786_ports i with up := { port :=
            { (w.it8786_ports i).up.port with uartclk := tier_clock a.baud } } }
        trace := w.trace ++
          ([Event.tty_termios_baud_rate a.requested,
            Event.tty_termios_encode_baud_rate a.requested a.requested,
            Event.uart_get_baud_rate ((w.it8786_ports i).up.port.uartclk / 16 / UART_DIV_MAX)
              (w.it8786_ports i).up.port.uartclk a.baud]
            ++ open_events
            ++ read_events (u8 (w.it8786_ports j).ldn) 0xF0 (u8 a.clock)
            ++ write_events 0xF0 (clock_config (u8 a.clock) (tier_code a.baud))
            ++ close_events
            ++ [Event.pr_debug (LogMsg.setting_baud a.baud (tier_clock a.baud)),
                Event.serial8250_do_set_termios
                  { (w.it8786_ports i).up.port with uartclk := tier_clock a.baud }]) } := by
  by_cases hb : a.baud ≤ 115200 <;>
    simp [it8786_serial_set_termios, emit, enter_sio_granted, hclosed, hgranted, hdata, hb,
      set_serial_clock_div_eq, exit_sio_eq, pr_debug, World.modifyPort, tier_clock, tier_code]

/-- C1: when the port's `private_data` is set and the session can be opened, the hook
returns, the port's `uartclk` is 1843200 for a clamped baud of at most 115200 and 14769230
above it, and the byte written to register 0xF0 of the port's logical device carries the
divisor code 0b00 in the first case and 0b11 in the second, all other bits as read. -/
theorem C1_two_tier_clock (i j : Fin 6) (a : TermiosAnswers) (w : World)
    (hclosed : w.sio_resource = false) (hgranted : a.granted = true)
    (hdata : (w.it8786_ports i).up.port.private_data = some j) :
    ∃ (w' : World) (config : Nat),
      it8786_serial_set_termios i a w = some w'
      ∧ (w'.it8786_ports i).up.port.uartclk
          = (if a.baud ≤ 115200 then 1843200 else 14769230)
      ∧ divisor_field config = (if a.baud ≤ 115200 then 0b00 else 0b11)
      ∧ config &&& not32 IT8786_SERIAL_CLOCK_MASK
          = u8 a.clock &&& not32 IT8786_SERIAL_CLOCK_MASK
      ∧ w'.trace = w.trace ++
          ([Event.tty_termios_baud_rate a.requested,
            Event.tty_termios_encode_baud_rate a.requested a.requested,
            Event.uart_get_baud_rate ((w.it8786_ports i).up.port.uartclk / 16 / UART_DIV_MAX)
              (w.it8786_ports i).up.port.uartclk a.baud]
            ++ open_events
            ++ read_events (u8 (w.it8786_ports j).ldn) 0xF0 (u8 a.clock)
            ++ write_events 0xF0 config
            ++ close_events
            ++ [Event.pr_debug (LogMsg.setting_baud a.baud
                  (if a.baud ≤ 115200 then 1843200 else 14769230)),
                Event.serial8250_do_set_termios (w'.it8786_ports i).up.port]) := by
  have hlt : tier_code a.baud < 4 := by
    unfold tier_code; split <;> decide
  have hc := clock_field_arith (u8 a.clock) (u8_lt _) (tier_code a.baud) hlt
  refine ⟨_, clock_config (u8 a.clock) (tier_code a.baud),
    set_termios_granted i j a w hclosed hgranted hdata, ?_, ?_, ?_, ?_⟩
  · simp [tier_clock]
  · have := hc.2
    simp only [divisor_field, clock_config]
    rw [this]
    simp [tier_code, IT8786_SERIAL_CLOCK_DIV_13, IT8786_SERIAL_CLOCK_DIV_1_625]
  · exact hc.1
  · simp [tier_clock]

/-- A request for 921600 baud on the port registered at the baseline clock. -/
theorem C1_two_tier_clock_witness :
    ∃ (w' : World) (config : Nat),
      it8786_serial_set_termios 0 answers_921600 world_registered = some w'
      ∧ (w'.it8786_ports 0).up.port.uartclk
          = (if answers_921600.baud ≤ 115200 then 1843200 else 14769230)
      ∧ divisor_field config = (if answers_921600.baud ≤ 115200 then 0b00 else 0b11)
      ∧ config &&& not32 IT8786_SERIAL_CLOCK_MASK
          = u8 answers_921600.clock &&& not32 IT8786_SERIAL_CLOCK_MASK
      ∧ w'.trace = world_registered.trace ++
          ([Event.tty_termios_baud_rate answers_921600.requested,
            Event.tty_termios_encode_baud_rate answers_921600.requested
              answers_921600.requested,
            Event.uart_get_baud_rate
              ((world_registered.it8786_ports 0).up.port.uartclk / 16 / UART_DIV_MAX)
              (world_registered.it8786_ports 0).up.port.uartclk answers_921600.baud]
            ++ open_events
            ++ read_events (u8 (world_registered.it8786_ports 0).ldn) 0xF0
                (u8 answers_921600.clock)
            ++ write_events 0xF0 config
            ++ close_events
            ++ [Event.pr_debug (LogMsg.setting_baud answers_921600.baud
                  (if answers_921600.baud ≤ 115200 then 1843200 else 14769230)),
                Event.serial8250_do_set_termios (w'.it8786_ports 0).up.port]) :=
  C1_two_tier_clock 0 0 answers_921600 world_registered (by decide) rfl (by decide)

theorem set_termios_busy (i : Fin 6) (a : TermiosAnswers) (w : World)
    (hclosed : w.sio_resource = false) (hg : a.granted = false) :
    it8786_serial_set_termios i a w = some
      { w with trace := w.trace ++
          [Event.tty_termios_baud_rate a.requested,
           Event.tty_termios_encode_baud_rate a.requested a.requested,
           Event.uart_get_baud_rate ((w.it8786_ports i).up.port.uartclk / 16 / UART_DIV_MAX)
             (w.it8786_ports i).up.port.uartclk a.baud,
           Event.request_muxed_region IT8786_SPECIAL_ADDR 2 false,
           Event.pr_warn LogMsg.cannot_update_clock_div,
           Event.serial8250_do_set_termios (w.it8786_ports i).up.port] } := by
  simp [it8786_serial_set_termios, emit, enter_sio, hclosed, hg, request_muxed_region,
    pr_warn, EBUSY]

/-- C5: when `enter_sio` fails inside the hook, the hook still returns; it makes no port
read or write, leaves `sio_resource` and every descriptor (so the port's `uartclk`) as
they were, warns, and calls `serial8250_do_set_termios` exactly once, as its last call,
with the unchanged port. -/
theorem C5_busy_keeps_clock (i : Fin 6) (a : TermiosAnswers) (w : World)
    (hbusy : (enter_sio a.granted w).1 ≠ 0) :
    it8786_serial_set_termios i a w = some
      { w with trace := w.trace ++
          [Event.tty_termios_baud_rate a.requested,
           Event.tty_termios_encode_baud_rate a.requested a.requested,
           Event.uart_get_baud_rate ((w.it8786_ports i).up.port.uartclk / 16 / UART_DIV_MAX)
             (w.it8786_ports i).up.port.uartclk a.baud,
           Event.request_muxed_region 0x2E 2 false,
           Event.pr_warn LogMsg.cannot_update_clock_div,
           Event.serial8250_do_set_termios (w.it8786_ports i).up.port] } := by
  have hs : w.sio_resource = false := by
    cases h : w.sio_resource
    · rfl
    · simp [enter_sio, h] at hbusy
  have hg : a.granted = false := by
    cases h : a.granted
    · rfl
    · rw [h, enter_sio_granted w hs] at hbusy
      simp at hbusy
  rw [set_termios_busy i a w hs hg]
  rfl

/-- A request for 9600 baud on the registered port while the region is refused. -/
theorem C5_busy_keeps_clock_witness :
    it8786_serial_set_termios 0 answers_busy world_registered = some
      { world_registered with trace := world_registered.trace ++
          [Event.tty_termios_baud_rate answers_busy.requested,
           Event.tty_termios_encode_baud_rate answers_busy.requested answers_busy.requested,
           Event.uart_get_baud_rate
             ((world_registered.it8786_ports 0).up.port.uartclk / 16 / UART_DIV_MAX)
             (world_registered.it8786_ports 0).up.port.uartclk answers_busy.baud,
           Event.request_muxed_region 0x2E 2 false,
           Event.pr_warn LogMsg.cannot_update_clock_div,
           Event.serial8250_do_set_termios (world_registered.it8786_ports 0).up.port] } :=
  C5_busy_keeps_clock 0 answers_busy world_registered (by decide)

theorem compose_bytes (h l : Nat) (hh : h < 256) (hl : l < 256) :
    u16 (u16 (u8 h <<< 8) ||| u8 l) = h * 256 + l := by
  have e := Nat.mul_add_lt_is_or (i := 8) (b := l) (by omega) h
  have e2 : h <<< 8 = 2 ^ 8 * h := by rw [Nat.shiftLeft_eq, Nat.mul_comm]
  unfold u16 u8
  rw [Nat.mod_eq_of_lt (a := h) (by omega), Nat.mod_eq_of_lt (a := l) (by omega), e2,
    Nat.mod_eq_of_lt (a := 2 ^ 8 * h) (by omega), ← e]
  omega

/-- C4: for identity bytes `id_h`, `id_l` (read in that order from 0x20 and 0x21 inside a
session of its own), `get_chip_id` returns `id_h * 256 + id_l`; when that is 0x8786,
`it8786_serial_init` returns 0 and its result is that of `it8786_register_ports`; for every
other pair it returns `-ENODEV` after the warning, with no further call and every
descriptor as it was. -/
theorem C4_chip_identity_gate (a : InitAnswers) (w : World)
    (hclosed : w.sio_resource = false) (hgranted : a.granted = true)
    (hh : a.id_h < 256) (hl : a.id_l < 256) :
    (get_chip_id a.id_h a.id_l w).1 = a.id_h * 256 + a.id_l
      ∧ (a.id_h * 256 + a.id_l = 0x8786 →
          it8786_serial_init a w =
            (0, it8786_register_ports a.ports
              { w with trace := w.trace ++ identify_events a.id_h a.id_l }))
      ∧ (a.id_h * 256 + a.id_l ≠ 0x8786 →
          it8786_serial_init a w =
            (-ENODEV,
              { w with trace := w.trace ++ (identify_events a.id_h a.id_l ++
                  [Event.pr_warn (LogMsg.invalid_chip_id (a.id_h * 256 + a.id_l))]) })) := by
  have hid := compose_bytes a.id_h a.id_l hh hl
  have h8h : u8 a.id_h = a.id_h := Nat.mod_eq_of_lt hh
  have h8l : u8 a.id_l = a.id_l := Nat.mod_eq_of_lt hl
  refine ⟨by rw [get_chip_id_eq]; exact hid, ?_, ?_⟩
  all_goals rw [h8h, h8l] at hid
  · intro he
    simp [it8786_serial_init, pr_debug, emit, enter_sio_granted, hclosed, hgranted,
      get_chip_id_eq, exit_sio_eq, hid, he, h8h, h8l, identify_events]
  · intro hne
    simp [it8786_serial_init, pr_debug, pr_warn, emit, enter_sio_granted, hclosed, hgranted,
      get_chip_id_eq, exit_sio_eq, hid, hne, h8h, h8l, identify_events]

/-- Identity (0x12, 0x34) is refused with `-ENODEV`; identity (0x87, 0x86) is accepted
and discovery runs. -/
theorem C4_chip_identity_gate_witness :
    it8786_serial_init answers_wrong_chip World.init =
        (-ENODEV,
          { World.init with trace := World.init.trace ++
              (identify_events answers_wrong_chip.id_h answers_wrong_chip.id_l ++
                [Event.pr_warn (LogMsg.invalid_chip_id
                  (answers_wrong_chip.id_h * 256 + answers_wrong_chip.id_l))]) })
      ∧ it8786_serial_init answers_right_chip World.init =
        (0, it8786_register_ports answers_right_chip.ports
          { World.init with trace := World.init.trace ++
              identify_events answers_right_chip.id_h answers_right_chip.id_l }) :=
  ⟨(C4_chip_identity_gate answers_wrong_chip World.init rfl rfl (by decide) (by decide)).2.2
      (by decide),
    (C4_chip_identity_gate answers_right_chip World.init rfl rfl (by decide) (by decide)).2.1
      (by decide)⟩

/-! ## The four ways through one iteration of the discovery loop -/

theorem enabled_bit (enable : Nat) : (u8 enable &&& 0b1 != 0) = decide (enable % 2 = 1) := by
  have h : u8 enable &&& 0b1 = enable % 2 := by
    rw [Nat.and_one_is_mod]
    unfold u8
    omega
  rw [h]
  rcases Nat.mod_two_eq_zero_or_one enable with h0 | h1
  · simp [h0]
  · simp [h1]

theorem register_port_busy (i : Fin 6) (a : ProbeAnswers) (w : World)
    (hclosed : w.sio_resource = false) (hg : a.granted = false) :
    register_port i a w =
      { w with trace := w.trace ++
          [Event.request_muxed_region IT8786_SPECIAL_ADDR 2 false,
           Event.pr_debug (LogMsg.skipping_busy_port i)] } := by
  simp [register_port, hg, enter_sio_busy, hclosed, pr_debug, emit, EBUSY]

theorem register_port_disabled (i : Fin 6) (a : ProbeAnswers) (w : World)
    (hclosed : w.sio_resource = false) (hg : a.granted = true) (he : a.enable % 2 = 0) :
    register_port i a w =
      { w with trace := w.trace ++
          (probe_events (w.it8786_ports i).ldn a.enable ++
            [Event.pr_info (LogMsg.skipping_disabled_port i (w.it8786_ports i).ldn)] ++
            close_events) } := by
  have hb : (u8 a.enable &&& 0b1 != 0) = false := by rw [enabled_bit]; simp [he]
  simp only [register_port, hg, enter_sio_granted _ hclosed, get_serial_port_enabled_eq, hb]
  simp [pr_info, emit, exit_sio_eq, probe_events, hclosed]

theorem register_port_failed (i : Fin 6) (a : ProbeAnswers) (w : World)
    (hclosed : w.sio_resource = false) (hg : a.granted = true) (he : a.enable % 2 = 1)
    (hr : a.ret < 0) :
    register_port i a w =
      { sio_resource := false
        it8786_ports := Function.update w.it8786_ports i
          { w.it8786_ports i with up := described_port i 0 }
        trace := w.trace ++
          (probe_events (w.it8786_ports i).ldn a.enable ++
            base_events (w.it8786_ports i).ldn a.base_h a.base_l ++ close_events ++
            [Event.serial8250_register_8250_port (described_port i (base_addr a)) a.ret,
             Event.pr_warn (LogMsg.failed_to_register i a.ret)]) } := by
  have hb : (u8 a.enable &&& 0b1 != 0) = true := by rw [enabled_bit]; simp [he]
  simp only [register_port, hg, enter_sio_granted _ hclosed, get_serial_port_enabled_eq, hb,
    get_serial_base_addr_eq, exit_sio_eq]
  simp [pr_warn, emit, probe_events, base_events, World.modifyPort, described_port,
    base_addr, hr]

theorem register_port_registered (i : Fin 6) (a : ProbeAnswers) (w : World)
    (hclosed : w.sio_resource = false) (hg : a.granted = true) (he : a.enable % 2 = 1)
    (hr : 0 ≤ a.ret) :
    register_port i a w =
      { sio_resource := false
        it8786_ports := Function.update w.it8786_ports i
          { w.it8786_ports i with line := a.ret, up := described_port i (base_addr a) }
        trace := w.trace ++
          (probe_events (w.it8786_ports i).ldn a.enable ++
            base_events (w.it8786_ports i).ldn a.base_h a.base_l ++ close_events ++
            [Event.serial8250_register_8250_port (described_port i (base_addr a)) a.ret] ++
            baseline_events a.granted2 (w.it8786_ports i).ldn a.clock ++
            [Event.pr_info (LogMsg.registered_port i (base_addr a))]) } := by
  have hb : (u8 a.enable &&& 0b1 != 0) = true := by rw [enabled_bit]; simp [he]
  have hr' : ¬ a.ret < 0 := not_lt.mpr hr
  simp only [register_port, hg, enter_sio_granted _ hclosed, get_serial_port_enabled_eq, hb,
    get_serial_base_addr_eq, exit_sio_eq]
  cases hg2 : a.granted2
  · simp [pr_info, emit, probe_events, base_events, baseline_events, World.modifyPort,
      described_port, base_addr, hr', enter_sio_busy, EBUSY]
  · simp [pr_info, emit, probe_events, base_events, baseline_events, World.modifyPort,
      described_port, base_addr, hr', enter_sio_granted, set_serial_clock_div_eq,
      exit_sio_eq]

/-- One iteration of the discovery loop, in closed form. -/
theorem register_port_eq (i : Fin 6) (a : ProbeAnswers) (w : World)
    (hclosed : w.sio_resource = false) :
    register_port i a w =
      { sio_resource := false
        it8786_ports := Function.update w.it8786_ports i
          (discovered_port i a (w.it8786_ports i))
        trace := w.trace ++ discovery_events i a (w.it8786_ports i).ldn } := by
  cases hg : a.granted
  · rw [register_port_busy i a w hclosed hg]
    cases w
    simp_all [discovery_events, discovered_port]
  · rcases Nat.mod_two_eq_zero_or_one a.enable with he | he
    · rw [register_port_disabled i a w hclosed hg he]
      cases w
      simp_all [discovery_events, discovered_port]
    · by_cases hr : 0 ≤ a.ret
      · rw [register_port_registered i a w hclosed hg he hr]
        simp [discovery_events, discovered_port, hg, he, hr]
      · rw [register_port_failed i a w hclosed hg he (not_le.mp hr)]
        simp [discovery_events, discovered_port, hg, he, hr]

theorem discovered_port_ldn (i : Fin 6) (a : ProbeAnswers) (p : it8786_serial_port) :
    (discovered_port i a p).ldn = p.ldn := by
  unfold discovered_port
  split
  · split <;> rfl
  · rfl

/-- The discovery loop over a duplicate-free list of indices, in closed form. -/
theorem register_ports_loop_eq (a : Fin 6 → ProbeAnswers) (is : List (Fin 6)) :
    ∀ w : World, w.sio_resource = false → is.Nodup →
      register_ports_loop a is w =
        { sio_resource := false
          it8786_ports := fun k =>
            if k ∈ is then discovered_port k (a k) (w.it8786_ports k) else w.it8786_ports k
          trace := w.trace ++
            is.flatMap fun i => discovery_events i (a i) (w.it8786_ports i).ldn } := by
  induction is with
  | nil =>
    intro w hclosed _
    cases w
    simp_all [register_ports_loop]
  | cons i rest ih =>
    intro w hclosed hnd
    have hi : i ∉ rest := (List.nodup_cons.mp hnd).1
    have hrest : rest.Nodup := (List.nodup_cons.mp hnd).2
    rw [register_ports_loop, register_port_eq i (a i) w hclosed, ih _ rfl hrest]
    congr 1
    · funext k
      by_cases hk : k = i
      · subst hk
        simp [hi]
      · by_cases hkr : k ∈ rest
        · simp [hk, hkr, Function.update_noteq hk]
        · simp [hk, hkr, Function.update_noteq hk]
    · simp only [List.flatMap_cons, List.append_assoc]
      congr 2
      apply List.flatMap_congr
      intro k hk
      have hki : k ≠ i := fun h => hi (h ▸ hk)
      simp [Function.update_noteq hki]

theorem mem_all_indices (i : Fin 6) : i ∈ ([0, 1, 2, 3, 4, 5] : List (Fin 6)) := by
  fin_cases i <;> decide

/-- C3: starting with the session closed and no descriptor holding a handle, with every
first region request granted, `it8786_register_ports` processes the six candidates in
order (its calls are the six per-candidate call lists, one after the other), and at
the end a descriptor holds a handle exactly when its enable flag had low bit 1 and its
registration call returned a non-negative value, the handle being that value; every other
descriptor still has line -1. -/
theorem C3_discovery_completeness (a : Fin 6 → ProbeAnswers) (w : World)
    (hclosed : w.sio_resource = false)
    (hline : ∀ i, (w.it8786_ports i).line = -1)
    (hgranted : ∀ i, (a i).granted = true) :
    (∀ i, 0 ≤ ((it8786_register_ports a w).it8786_ports i).line
        ↔ ((a i).enable % 2 = 1 ∧ 0 ≤ (a i).ret))
      ∧ (∀ i, 0 ≤ ((it8786_register_ports a w).it8786_ports i).line →
          ((it8786_register_ports a w).it8786_ports i).line = (a i).ret)
      ∧ (∀ i, ¬ 0 ≤ ((it8786_register_ports a w).it8786_ports i).line →
          ((it8786_register_ports a w).it8786_ports i).line = -1)
      ∧ (List.filter (fun i => decide (0 ≤ ((it8786_register_ports a w).it8786_ports i).line))
            [0, 1, 2, 3, 4, 5]).length
          = (List.filter (fun i => decide ((a i).enable % 2 = 1 ∧ 0 ≤ (a i).ret))
            [0, 1, 2, 3, 4, 5]).length
      ∧ (it8786_register_ports a w).trace = w.trace ++
          List.flatMap [0, 1, 2, 3, 4, 5] fun i =>
            discovery_events i (a i) (w.it8786_ports i).ldn := by
  have hloop := register_ports_loop_eq a [0, 1, 2, 3, 4, 5] w hclosed (by decide)
  have hport : ∀ i, ((it8786_register_ports a w).it8786_ports i).line
      = if (a i).enable % 2 = 1 ∧ 0 ≤ (a i).ret then (a i).ret else -1 := by
    intro i
    unfold it8786_register_ports
    rw [hloop]
    simp only [mem_all_indices, if_true, discovered_port, hgranted, true_and]
    by_cases he : (a i).enable % 2 = 1
    · by_cases hr : 0 ≤ (a i).ret
      · simp [he, hr]
      · simp [he, hr, hline]
    · simp [he, hline]
  have hiff : ∀ i, 0 ≤ ((it8786_register_ports a w).it8786_ports i).line
      ↔ ((a i).enable % 2 = 1 ∧ 0 ≤ (a i).ret) := by
    intro i
    rw [hport]
    by_cases hc : (a i).enable % 2 = 1 ∧ 0 ≤ (a i).ret
    · simp [hc]
    · simp [hc]
  refine ⟨hiff, ?_, ?_, ?_, ?_⟩
  · intro i
    rw [hport]
    by_cases hc : (a i).enable % 2 = 1 ∧ 0 ≤ (a i).ret
    · simp [hc]
    · simp [hc]
  · intro i
    rw [hport]
    by_cases hc : (a i).enable % 2 = 1 ∧ 0 ≤ (a i).ret
    · simp [hc]
    · simp [hc]
  · congr 1
    apply List.filter_congr
    intro i _
    simp only [hiff i]
  · unfold it8786_register_ports
    rw [hloop]

/-- A pass in which candidates 0 and 3 register, candidate 1 fails and the rest are
disabled. -/
theorem C3_discovery_completeness_witness :
    (∀ i, 0 ≤ ((it8786_register_ports answers_mixed World.init).it8786_ports i).line
        ↔ ((answers_mixed i).enable % 2 = 1 ∧ 0 ≤ (answers_mixed i).ret))
      ∧ (∀ i, 0 ≤ ((it8786_register_ports answers_mixed World.init).it8786_ports i).line →
          ((it8786_register_ports answers_mixed World.init).it8786_ports i).line
            = (answers_mixed i).ret)
      ∧ (∀ i, ¬ 0 ≤ ((it8786_register_ports answers_mixed World.init).it8786_ports i).line →
          ((it8786_register_ports answers_mixed World.init).it8786_ports i).line = -1)
      ∧ (List.filter (fun i => decide
            (0 ≤ ((it8786_register_ports answers_mixed World.init).it8786_ports i).line))
            [0, 1, 2, 3, 4, 5]).length
          = (List.filter (fun i => decide
            ((answers_mixed i).enable % 2 = 1 ∧ 0 ≤ (answers_mixed i).ret))
            [0, 1, 2, 3, 4, 5]).length
      ∧ (it8786_register_ports answers_mixed World.init).trace = World.init.trace ++
          List.flatMap [0, 1, 2, 3, 4, 5] fun i =>
            discovery_events i (answers_mixed i) (World.init.it8786_ports i).ldn :=
  C3_discovery_completeness answers_mixed World.init rfl (by decide) (by decide)

theorem split_candidates (i : Fin 6) (f : Fin 6 → List Event) :
    List.flatMap [0, 1, 2, 3, 4, 5] f =
      (candidates_before i).flatMap f ++ (f i ++ (candidates_after i).flatMap f) := by
  fin_cases i <;> simp [candidates_before, candidates_after, List.flatMap_cons]

theorem register_call_names_candidate (k : Fin 6) (a : ProbeAnswers) (ldn : Nat)
    (up : uart_8250_port) (ret : Int)
    (h : Event.serial8250_register_8250_port up ret ∈ discovery_events k a ldn) :
    up.port.private_data = some k := by
  unfold discovery_events at h
  split at h
  · split at h
    · split at h
      · cases hg : a.granted2 <;>
          simp [hg, probe_events, base_events, baseline_events, open_events, read_events,
            write_events, close_events] at h <;>
          simp [h.1, described_port]
      · simp [probe_events, base_events, open_events, read_events, close_events] at h
        simp [h.1, described_port]
    · simp [probe_events, open_events, read_events, close_events] at h
  · simp at h

/-- C9: started with the session closed, for every candidate `i` whose region request is
granted: when its enable flag has low bit 0, the calls `it8786_register_ports` makes are
those of the candidates before `i`, then for `i` exactly open the session, select its
logical device, read 0x30, log, close the session (no read of 0x60 or 0x61), then those of
the candidates after `i`; no registration call of the whole pass names descriptor `i`, and
descriptor `i` is left as it was.  When the flag has low bit 1, whatever its other bits,
the calls for `i` go on from the read of 0x30 to the reads of 0x60 and 0x61, the close of
the session and the registration call. -/
theorem C9_disabled_port_skipped (a : Fin 6 → ProbeAnswers) (i : Fin 6) (w : World)
    (hclosed : w.sio_resource = false) (hgranted : (a i).granted = true) :
    ((a i).enable % 2 = 0 →
        (it8786_register_ports a w).trace = w.trace ++
            ((candidates_before i).flatMap
                (fun k => discovery_events k (a k) (w.it8786_ports k).ldn) ++
              ((open_events ++
                  read_events (u8 (w.it8786_ports i).ldn) IT8786_SERIAL_ENABLE_REG
                    (u8 (a i).enable) ++
                  [Event.pr_info (LogMsg.skipping_disabled_port i (w.it8786_ports i).ldn)] ++
                  close_events) ++
                (candidates_after i).flatMap
                  (fun k => discovery_events k (a k) (w.it8786_ports k).ldn)))
          ∧ (∀ up ret evs, (it8786_register_ports a w).trace = w.trace ++ evs →
              Event.serial8250_register_8250_port up ret ∈ evs →
              up.port.private_data ≠ some i)
          ∧ (it8786_register_ports a w).it8786_ports i = w.it8786_ports i)
      ∧ ((a i).enable % 2 = 1 →
          ∃ tail, (it8786_register_ports a w).trace = w.trace ++
            ((candidates_before i).flatMap
                (fun k => discovery_events k (a k) (w.it8786_ports k).ldn) ++
              ((open_events ++
                  read_events (u8 (w.it8786_ports i).ldn) IT8786_SERIAL_ENABLE_REG
                    (u8 (a i).enable) ++
                  read_events (u8 (w.it8786_ports i).ldn) IT8786_SERIAL_BASE_REG_H
                    (u8 (a i).base_h) ++
                  [Event.outb IT8786_SERIAL_BASE_REG_L IT8786_SPECIAL_ADDR,
                   Event.inb IT8786_SPECIAL_DATA (u8 (a i).base_l)] ++
                  close_events ++
                  [Event.serial8250_register_8250_port
                    (described_port i (base_addr (a i))) (a i).ret] ++ tail) ++
                (candidates_after i).flatMap
                  (fun k => discovery_events k (a k) (w.it8786_ports k).ldn)))) := by
  have hloop := register_ports_loop_eq a [0, 1, 2, 3, 4, 5] w hclosed (by decide)
  have htrace : (it8786_register_ports a w).trace = w.trace ++
      ((candidates_before i).flatMap
          (fun k => discovery_events k (a k) (w.it8786_ports k).ldn) ++
        (discovery_events i (a i) (w.it8786_ports i).ldn ++
          (candidates_after i).flatMap
            (fun k => discovery_events k (a k) (w.it8786_ports k).ldn))) := by
    unfold it8786_register_ports
    rw [hloop, ← split_candidates]
  constructor
  · intro he
    have hne : ¬ (a i).enable % 2 = 1 := by omega
    have hseg : discovery_events i (a i) (w.it8786_ports i).ldn =
        open_events ++
          read_events (u8 (w.it8786_ports i).ldn) IT8786_SERIAL_ENABLE_REG
            (u8 (a i).enable) ++
          [Event.pr_info (LogMsg.skipping_disabled_port i (w.it8786_ports i).ldn)] ++
          close_events := by
      simp [discovery_events, hgranted, hne, probe_events]
    refine ⟨by rw [htrace, hseg], ?_, ?_⟩
    · intro up ret evs hevs hmem hup
      rw [htrace] at hevs
      have hevs' := List.append_cancel_left hevs
      rw [← hevs', hseg] at hmem
      simp only [List.mem_append, List.mem_flatMap] at hmem
      rcases hmem with ⟨k, hk, hin⟩ | hin | ⟨k, hk, hin⟩
      · have hpd := register_call_names_candidate k (a k) _ up ret hin
        rw [hpd] at hup
        have hki : k = i := Option.some.inj hup
        subst hki
        simp [candidates_before] at hk
      · simp [open_events, read_events, close_events] at hin
      · have hpd := register_call_names_candidate k (a k) _ up ret hin
        rw [hpd] at hup
        have hki : k = i := Option.some.inj hup
        subst hki
        simp [candidates_after] at hk
    · unfold it8786_register_ports
      rw [hloop]
      simp [mem_all_indices, discovered_port, hne]
  · intro he
    by_cases hr : 0 ≤ (a i).ret
    · refine ⟨baseline_events (a i).granted2 (w.it8786_ports i).ldn (a i).clock ++
        [Event.pr_info (LogMsg.registered_port i (base_addr (a i)))], ?_⟩
      rw [htrace]
      simp [discovery_events, hgranted, he, hr, probe_events, base_events]
    · refine ⟨[Event.pr_warn (LogMsg.failed_to_register i (a i).ret)], ?_⟩
      rw [htrace]
      simp [discovery_events, hgranted, he, hr, probe_events, base_events]

/-- In the mixed pass candidate 2 reads enable flag 0x00 and is skipped between the
candidates before and after it, and candidate 0 reads 0x01 and is registered. -/
theorem C9_disabled_port_skipped_witness :
    ((it8786_register_ports answers_mixed World.init).trace = World.init.trace ++
            ((candidates_before 2).flatMap
                (fun k => discovery_events k (answers_mixed k)
                  (World.init.it8786_ports k).ldn) ++
              ((open_events ++
                  read_events (u8 (World.init.it8786_ports 2).ldn) IT8786_SERIAL_ENABLE_REG
                    (u8 (answers_mixed 2).enable) ++
                  [Event.pr_info (LogMsg.skipping_disabled_port (2 : Fin 6)
                    (World.init.it8786_ports 2).ldn)] ++
                  close_events) ++
                (candidates_after 2).flatMap
                  (fun k => discovery_events k (answers_mixed k)
                    (World.init.it8786_ports k).ldn)))
          ∧ (∀ up ret evs,
              (it8786_register_ports answers_mixed World.init).trace
                = World.init.trace ++ evs →
              Event.serial8250_register_8250_port up ret ∈ evs →
              up.port.private_data ≠ some 2)
          ∧ (it8786_register_ports answers_mixed World.init).it8786_ports 2
              = World.init.it8786_ports 2)
      ∧ (∃ tail, (it8786_register_ports answers_mixed World.init).trace = World.init.trace ++
            ((candidates_before 0).flatMap
                (fun k => discovery_events k (answers_mixed k)
                  (World.init.it8786_ports k).ldn) ++
              ((open_events ++
                  read_events (u8 (World.init.it8786_ports 0).ldn) IT8786_SERIAL_ENABLE_REG
                    (u8 (answers_mixed 0).enable) ++
                  read_events (u8 (World.init.it8786_ports 0).ldn) IT8786_SERIAL_BASE_REG_H
                    (u8 (answers_mixed 0).base_h) ++
                  [Event.outb IT8786_SERIAL_BASE_REG_L IT8786_SPECIAL_ADDR,
                   Event.inb IT8786_SPECIAL_DATA (u8 (answers_mixed 0).base_l)] ++
                  close_events ++
                  [Event.serial8250_register_8250_port
                    (described_port 0 (base_addr (answers_mixed 0)))
                    (answers_mixed 0).ret] ++ tail) ++
                (candidates_after 0).flatMap
                  (fun k => discovery_events k (answers_mixed k)
                    (World.init.it8786_ports k).ldn)))) :=
  ⟨(C9_disabled_port_skipped answers_mixed 2 World.init rfl (by decide)).1 (by decide),
    (C9_disabled_port_skipped answers_mixed 0 World.init rfl (by decide)).2 (by decide)⟩

/-! ## Shutdown -/

theorem unregister_port_eq (i : Fin 6) (a : ExitAnswers) (w : World)
    (hclosed : w.sio_resource = false) :
    unregister_port i a w =
      { w with trace := w.trace ++ shutdown_events a (w.it8786_ports i) } := by
  by_cases hl : 0 ≤ (w.it8786_ports i).line
  · cases hg : a.granted
    · cases w
      simp_all [unregister_port, shutdown_events, baseline_events, enter_sio_busy, emit, EBUSY]
    · cases w
      simp_all [unregister_port, shutdown_events, baseline_events, enter_sio_granted, emit,
        set_serial_clock_div_eq, exit_sio_eq]
  · cases w
    simp only [unregister_port, shutdown_events, ge_iff_le, hl, if_false]
    simp

theorem unregister_ports_loop_eq (a : Fin 6 → ExitAnswers) (is : List (Fin 6)) :
    ∀ w : World, w.sio_resource = false →
      unregister_ports_loop a is w =
        { w with trace := w.trace ++
            is.flatMap fun i => shutdown_events (a i) (w.it8786_ports i) } := by
  induction is with
  | nil =>
    intro w _
    simp [unregister_ports_loop]
  | cons i rest ih =>
    intro w hclosed
    rw [unregister_ports_loop, unregister_port_eq i (a i) w hclosed, ih]
    · simp [List.flatMap_cons]
    · exact hclosed

theorem it8786_serial_exit_eq (a : Fin 6 → ExitAnswers) (w : World)
    (hclosed : w.sio_resource = false) :
    it8786_serial_exit a w =
      { w with trace := w.trace ++
          (Event.pr_debug LogMsg.exiting_module ::
            List.flatMap [0, 1, 2, 3, 4, 5] fun i =>
              shutdown_events (a i) (w.it8786_ports i)) } := by
  unfold it8786_serial_exit
  rw [unregister_ports_loop_eq a _ _ (by simpa [pr_debug, emit] using hclosed)]
  simp [pr_debug, emit]

/-- C7, as the claim states it, fails: after candidate 0 has been registered on line 0,
shutdown leaves line 0 in its descriptor. -/
theorem C7_handle_survives_shutdown :
    0 ≤ (world_registered.it8786_ports 0).line
      ∧ ¬ ((it8786_serial_exit answers_exit world_registered).it8786_ports 0).line < 0 := by
  decide

/-- C7, amended: with the session closed and every region request granted, shutdown
makes, for each descriptor with `line >= 0` and in index order, exactly these calls: open
the session, select the descriptor's logical device, read 0xF0, write back a byte whose
divisor field is the baseline code and whose other bits are as read, close the session,
then `serial8250_unregister_port` with that line; it makes no call for a descriptor
with `line < 0`, and it leaves every descriptor, the `line` fields included, as it was. -/
theorem C7_shutdown_resets_and_unregisters (a : Fin 6 → ExitAnswers) (w : World)
    (hclosed : w.sio_resource = false) (hgranted : ∀ i, (a i).granted = true) :
    ∃ config : Fin 6 → Nat,
      (∀ i, divisor_field (config i) = IT8786_SERIAL_CLOCK_DIV_13
          ∧ config i &&& not32 IT8786_SERIAL_CLOCK_MASK
              = u8 (a i).clock &&& not32 IT8786_SERIAL_CLOCK_MASK)
      ∧ it8786_serial_exit a w =
          { w with trace := w.trace ++
              (Event.pr_debug LogMsg.exiting_module ::
                List.flatMap [0, 1, 2, 3, 4, 5] fun i =>
                  if 0 ≤ (w.it8786_ports i).line then
                    open_events ++
                      read_events (u8 (w.it8786_ports i).ldn) 0xF0 (u8 (a i).clock) ++
                      write_events 0xF0 (config i) ++ close_events ++
                      [Event.serial8250_unregister_port (w.it8786_ports i).line]
                  else []) } := by
  refine ⟨fun i => clock_config (u8 (a i).clock) IT8786_SERIAL_CLOCK_DIV_13, ?_, ?_⟩
  · intro i
    have hc := clock_field_arith (u8 (a i).clock) (u8_lt _) IT8786_SERIAL_CLOCK_DIV_13
      (by decide)
    exact ⟨hc.2, hc.1⟩
  · rw [it8786_serial_exit_eq a w hclosed]
    simp [shutdown_events, baseline_events, hgranted]

/-- Shutdown of the module with candidate 0 registered on line 0. -/
theorem C7_shutdown_resets_and_unregisters_witness :
    ∃ config : Fin 6 → Nat,
      (∀ i, divisor_field (config i) = IT8786_SERIAL_CLOCK_DIV_13
          ∧ config i &&& not32 IT8786_SERIAL_CLOCK_MASK
              = u8 (answers_exit i).clock &&& not32 IT8786_SERIAL_CLOCK_MASK)
      ∧ it8786_serial_exit answers_exit world_registered =
          { world_registered with trace := world_registered.trace ++
              (Event.pr_debug LogMsg.exiting_module ::
                List.flatMap [0, 1, 2, 3, 4, 5] fun i =>
                  if 0 ≤ (world_registered.it8786_ports i).line then
                    open_events ++
                      read_events (u8 (world_registered.it8786_ports i).ldn) 0xF0
                        (u8 (answers_exit i).clock) ++
                      write_events 0xF0 (config i) ++ close_events ++
                      [Event.serial8250_unregister_port (world_registered.it8786_ports i).line]
                  else []) } :=
  C7_shutdown_resets_and_unregisters answers_exit world_registered (by decide) (by decide)

/-! ## The session around calls into the UART driver -/

theorem run_append (xs ys : List Event) :
    ∀ s : Session, Session.run s (xs ++ ys) = (Session.run s xs).bind fun t => t.run ys := by
  induction xs with
  | nil => intro s; simp [Session.run]
  | cons e es ih =>
    intro s
    simp only [List.cons_append, Session.run]
    split
    · rfl
    · exact ih _

theorem run_cons (s : Session) (e : Event) (es : List Event) :
    Session.run s (e :: es) =
      if e.is_driver_call && s != Session.closed then none else Session.run (s.step e) es := by
  rw [Session.run]

theorem run_nil (s : Session) : Session.run s [] = some s := by
  rw [Session.run]

theorem run_open_events : Session.run Session.closed open_events = some Session.opened := by
  decide

theorem run_close_events : Session.run Session.opened close_events = some Session.closed := by
  decide

theorem run_read_events (ldn reg value : Nat) (hreg : reg ≠ 0x02) :
    Session.run Session.opened (read_events ldn reg value) = some Session.opened := by
  simp [Session.run, Session.step, read_events, Event.is_driver_call, IT8786_LDN_REG,
    IT8786_SPECIAL_ADDR, IT8786_SPECIAL_DATA, hreg]

theorem run_write_events (reg value : Nat) (hreg : reg ≠ 0x02) :
    Session.run Session.opened (write_events reg value) = some Session.opened := by
  simp [Session.run, Session.step, write_events, Event.is_driver_call,
    IT8786_SPECIAL_ADDR, IT8786_SPECIAL_DATA, hreg]

theorem run_probe_events (ldn enable : Nat) :
    Session.run Session.closed (probe_events ldn enable) = some Session.opened := by
  simp [probe_events, run_append, run_open_events, run_read_events,
    IT8786_SERIAL_ENABLE_REG]

theorem run_base_events (ldn base_h base_l : Nat) :
    Session.run Session.opened (base_events ldn base_h base_l) = some Session.opened := by
  simp [base_events, run_append, run_read_events, IT8786_SERIAL_BASE_REG_H]
  simp [Session.run, Session.step, Event.is_driver_call, IT8786_SERIAL_BASE_REG_L,
    IT8786_SPECIAL_ADDR]

theorem run_baseline_events (granted : Bool) (ldn clock : Nat) :
    Session.run Session.closed (baseline_events granted ldn clock) = some Session.closed := by
  cases granted
  · simp [baseline_events, Session.run, Session.step, Event.is_driver_call]
  · simp [baseline_events, run_append, run_open_events, run_read_events, run_write_events,
      run_close_events]

theorem run_discovery_events (i : Fin 6) (a : ProbeAnswers) (ldn : Nat) :
    Session.run Session.closed (discovery_events i a ldn) = some Session.closed := by
  unfold discovery_events
  cases a.granted
  · simp [Session.run, Session.step, Event.is_driver_call]
  · by_cases he : a.enable % 2 = 1
    · by_cases hr : 0 ≤ a.ret
      · simp [he, hr, run_append, run_probe_events, run_base_events, run_close_events,
          run_baseline_events, run_cons, run_nil, Session.step, Event.is_driver_call]
      · simp [he, hr, run_append, run_probe_events, run_base_events, run_close_events]
        simp [Session.run, Session.step, Event.is_driver_call]
    · simp [he, run_append, run_probe_events, run_close_events]
      simp [Session.run, Session.step, Event.is_driver_call, run_close_events]

theorem run_shutdown_events (a : ExitAnswers) (p : it8786_serial_port) :
    Session.run Session.closed (shutdown_events a p) = some Session.closed := by
  unfold shutdown_events
  split
  · simp [run_append, run_baseline_events]
    simp [Session.run, Session.step, Event.is_driver_call]
  · rfl

theorem run_flatMap (f : Fin 6 → List Event)
    (hf : ∀ i, Session.run Session.closed (f i) = some Session.closed) (is : List (Fin 6)) :
    Session.run Session.closed (is.flatMap f) = some Session.closed := by
  induction is with
  | nil => rfl
  | cons i rest ih => simp [List.flatMap_cons, run_append, hf, ih]

theorem run_identify_events (id_h id_l : Nat) :
    Session.run Session.closed (identify_events id_h id_l) = some Session.closed := by
  simp [identify_events, run_append, run_cons, run_nil, run_open_events, run_close_events,
    Session.step, Event.is_driver_call, IT8786_CHIP_ID_REG_H, IT8786_CHIP_ID_REG_L,
    IT8786_SPECIAL_ADDR]

theorem register_ports_session (a : Fin 6 → ProbeAnswers) (w : World)
    (hclosed : w.sio_resource = false) :
    ∃ evs, (it8786_register_ports a w).trace = w.trace ++ evs
      ∧ Session.run Session.closed evs = some Session.closed := by
  refine ⟨List.flatMap [0, 1, 2, 3, 4, 5] fun i =>
    discovery_events i (a i) (w.it8786_ports i).ldn, ?_, ?_⟩
  · unfold it8786_register_ports
    rw [register_ports_loop_eq a [0, 1, 2, 3, 4, 5] w hclosed (by decide)]
  · exact run_flatMap _ (fun i => run_discovery_events i (a i) _) _

theorem init_session (a : InitAnswers) (w : World) (hclosed : w.sio_resource = false) :
    ∃ evs, (it8786_serial_init a w).2.trace = w.trace ++ evs
      ∧ Session.run Session.closed evs = some Session.closed := by
  cases hg : a.granted
  · refine ⟨[Event.pr_debug LogMsg.initializing_module,
      Event.request_muxed_region IT8786_SPECIAL_ADDR 2 false], ?_, by decide⟩
    simp [it8786_serial_init, pr_debug, emit, enter_sio, hclosed, hg, request_muxed_region,
      EBUSY]
  · by_cases hid : u16 (u16 (u8 a.id_h <<< 8) ||| u8 a.id_l) = 0x8786
    · obtain ⟨evs, htrace, hrun⟩ := register_ports_session a.ports
        { w with trace := w.trace ++ identify_events (u8 a.id_h) (u8 a.id_l) } hclosed
      refine ⟨identify_events (u8 a.id_h) (u8 a.id_l) ++ evs, ?_, ?_⟩
      · rw [← List.append_assoc, ← htrace]
        simp [it8786_serial_init, pr_debug, emit, enter_sio_granted, hclosed, hg,
          get_chip_id_eq, exit_sio_eq, hid, identify_events]
      · simp [run_append, run_identify_events, hrun]
    · refine ⟨identify_events (u8 a.id_h) (u8 a.id_l) ++
        [Event.pr_warn (LogMsg.invalid_chip_id (u16 (u16 (u8 a.id_h <<< 8) ||| u8 a.id_l)))],
        ?_, ?_⟩
      · simp [it8786_serial_init, pr_debug, pr_warn, emit, enter_sio_granted, hclosed, hg,
          get_chip_id_eq, exit_sio_eq, hid, identify_events]
      · simp [run_append, run_identify_events, run_cons, run_nil, Session.step,
          Event.is_driver_call]

theorem set_termios_session (i : Fin 6) (a : TermiosAnswers) (w : World)
    (hclosed : w.sio_resource = false)
    (hdata : (w.it8786_ports i).up.port.private_data ≠ none) :
    ∃ w' evs, it8786_serial_set_termios i a w = some w' ∧ w'.trace = w.trace ++ evs
      ∧ Session.run Session.closed evs = some Session.closed := by
  cases hg : a.granted
  · refine ⟨_, _, set_termios_busy i a w hclosed hg, rfl, ?_⟩
    simp [run_cons, run_nil, Session.step, Event.is_driver_call]
  · obtain ⟨j, hj⟩ := Option.ne_none_iff_exists'.mp hdata
    refine ⟨_, _, set_termios_granted i j a w hclosed hg hj, rfl, ?_⟩
    simp [run_append, run_cons, run_nil, run_open_events, run_read_events, run_write_events,
      run_close_events, Session.step, Event.is_driver_call]

theorem exit_session (a : Fin 6 → ExitAnswers) (w : World)
    (hclosed : w.sio_resource = false) :
    ∃ evs, (it8786_serial_exit a w).trace = w.trace ++ evs
      ∧ Session.run Session.closed evs = some Session.closed := by
  refine ⟨_, by rw [it8786_serial_exit_eq a w hclosed], ?_⟩
  rw [run_cons]
  simp only [Event.is_driver_call, Bool.false_and, Session.step]
  exact run_flatMap _ (fun i => run_shutdown_events (a i) _) _

/-- C6: started with the session closed, each entry point (`it8786_serial_init`,
`it8786_register_ports`, the `set_termios` hook on a port whose `private_data` is set,
`it8786_serial_exit`) makes its calls so that every call to
`serial8250_register_8250_port`, `serial8250_unregister_port` and
`serial8250_do_set_termios` finds the session closed (region released after a complete
disable pair, and no mailbox access outside a held region), and the session is closed
again when the entry point returns, whatever the kernel answers. -/
theorem C6_session_closed_at_driver_calls (w : World) (hclosed : w.sio_resource = false) :
    (∀ a : InitAnswers, ∃ evs, (it8786_serial_init a w).2.trace = w.trace ++ evs
        ∧ Session.run Session.closed evs = some Session.closed)
      ∧ (∀ a : Fin 6 → ProbeAnswers, ∃ evs, (it8786_register_ports a w).trace = w.trace ++ evs
        ∧ Session.run Session.closed evs = some Session.closed)
      ∧ (∀ (i : Fin 6) (a : TermiosAnswers),
          (w.it8786_ports i).up.port.private_data ≠ none →
          ∃ w' evs, it8786_serial_set_termios i a w = some w' ∧ w'.trace = w.trace ++ evs
            ∧ Session.run Session.closed evs = some Session.closed)
      ∧ (∀ a : Fin 6 → ExitAnswers, ∃ evs, (it8786_serial_exit a w).trace = w.trace ++ evs
        ∧ Session.run Session.closed evs = some Session.closed) :=
  ⟨fun a => init_session a w hclosed, fun a => register_ports_session a w hclosed,
    fun i a h => set_termios_session i a w hclosed h, fun a => exit_session a w hclosed⟩

/-- The four entry points run from the state with candidate 0 registered. -/
theorem C6_session_closed_at_driver_calls_witness :
    (∃ evs, (it8786_serial_init answers_right_chip world_registered).2.trace
          = world_registered.trace ++ evs
        ∧ Session.run Session.closed evs = some Session.closed)
      ∧ (∃ evs, (it8786_register_ports answers_mixed world_registered).trace
          = world_registered.trace ++ evs
        ∧ Session.run Session.closed evs = some Session.closed)
      ∧ (∃ w' evs, it8786_serial_set_termios 0 answers_921600 world_registered = some w'
          ∧ w'.trace = world_registered.trace ++ evs
          ∧ Session.run Session.closed evs = some Session.closed)
      ∧ (∃ evs, (it8786_serial_exit answers_exit world_registered).trace
          = world_registered.trace ++ evs
        ∧ Session.run Session.closed evs = some Session.closed) :=
  have h := C6_session_closed_at_driver_calls world_registered (by decide)
  ⟨h.1 answers_right_chip, h.2.1 answers_mixed, h.2.2.1 0 answers_921600 (by decide),
    h.2.2.2 answers_exit⟩

end IT8786
